import Mathlib

/-!
Shallow embedding of `contracts/SyntheticDataMarket.sol` (Solidity ^0.8.20).

Modelling conventions:
* Addresses are natural numbers; `0` plays the role of `address(0)`.
  The contract's own address is not an element of the external-account map
  `eoa`: value entering the contract is debited from the sender's `eoa`
  balance and credited to `contractBal`, and outgoing transfers move value
  the other way.
* Every external function is one atomic transaction: it either returns the
  next state (`Except.ok`) or reverts (`Except.error`) leaving the state
  unchanged.  This matches EVM revert semantics; the contract's
  `nonReentrant` guard plus the checks-effects-interactions ordering is what
  justifies treating the low-level `call{value: ...}` transfers as oracle
  booleans (`recvOk`) instead of re-entrant executions.
* Solidity 0.8 checked arithmetic on `uint256` is modelled by explicit
  guards against `U256 = 2^256`; a would-be overflow or underflow reverts
  with `Err.arithOverflow` (the EVM panic).  `uint8` parameters are `Fin
  256`.  EVM account balances are left as plain `Nat` sums (total ether
  supply keeps them far below `2^256`).
* Each `Err` constructor corresponds to one `require` message of the
  source, noted in a comment.
-/

namespace SyntheticDataMarket

/-- Account identities; `0` is `address(0)`. -/
abbrev Address := Nat

/-- `2^256`, the bound of Solidity `uint256` checked arithmetic. -/
def U256 : Nat := 2 ^ 256

/-- enum DataFormat { AUDIO, CSV, IMAGE, TEXT, VIDEO, MIXED } -/
inductive DataFormat
  | AUDIO | CSV | IMAGE | TEXT | VIDEO | MIXED
  deriving DecidableEq, Repr

/-- Numeric value of a `DataFormat` enum member, as Solidity casts it. -/
def DataFormat.toNat : DataFormat → Nat
  | AUDIO => 0
  | CSV => 1
  | IMAGE => 2
  | TEXT => 3
  | VIDEO => 4
  | MIXED => 5

/-- enum RequestStatus { OPEN, CLOSED } (zero value: OPEN) -/
inductive RequestStatus
  | OPEN | CLOSED
  deriving DecidableEq, Repr

/-- enum SubmissionStatus { PENDING, APPROVED, REJECTED, PAID, REFUNDED } -/
inductive SubmissionStatus
  | PENDING | APPROVED | REJECTED | PAID | REFUNDED
  deriving DecidableEq, Repr

/-- struct Request of the source, field for field. -/
structure Request where
  id : Nat
  buyer : Address
  budget : Nat
  formatsMask : Nat
  description : String
  status : RequestStatus
  qualityScore : Nat
  qualityReportCid : String
  finalizedSubmissionId : Nat
  createdAt : Nat
  deriving Repr

/-- The zero-initialised `Request` a Solidity mapping returns for an
absent key. -/
def defaultRequest : Request where
  id := 0
  buyer := 0
  budget := 0
  formatsMask := 0
  description := ""
  status := RequestStatus.OPEN
  qualityScore := 0
  qualityReportCid := ""
  finalizedSubmissionId := 0
  createdAt := 0

/-- struct Submission of the source, field for field. -/
structure Submission where
  id : Nat
  requestId : Nat
  seller : Address
  model : Address
  format : DataFormat
  fileSize : Nat
  sampleCount : Nat
  fileExtensions : String
  datasetReference : String
  status : SubmissionStatus
  qualityChecked : Bool
  createdAt : Nat
  deriving Repr

/-- The zero-initialised `Submission` a Solidity mapping returns for an
absent key. -/
def defaultSubmission : Submission where
  id := 0
  requestId := 0
  seller := 0
  model := 0
  format := DataFormat.AUDIO
  fileSize := 0
  sampleCount := 0
  fileExtensions := ""
  datasetReference := ""
  status := SubmissionStatus.PENDING
  qualityChecked := false
  createdAt := 0

/-- Revert reasons; each constructor is one `require` message (or EVM-level
failure) of the source contract. -/
inductive Err
  | insufficientFunds      -- EVM: msg.value exceeds the sender's balance
  | arithOverflow          -- Solidity 0.8 checked-arithmetic panic
  | budgetZero             -- "Budget must be > 0"
  | emptyMask              -- "Must accept at least one format"
  | requestNotFound        -- "Request not found"
  | onlyBuyer              -- "Only buyer"
  | requestNotOpen         -- "Request not open"
  | cancelRefundFailed     -- "Refund failed"
  | notWhitelisted         -- "Seller not whitelisted"
  | alreadySubmitted       -- "Already submitted for this request"
  | submissionNotFound     -- "Submission not found"
  | alreadyVerified        -- "Submission already verified"
  | assocRequestNotFound   -- "Associated request not found"
  | requestFinalized       -- "Request already finalized"
  | selfVerifyDisabled     -- "Model self-verify disabled"
  | modelNotRegistered     -- "Model not registered"
  | notVerifierOrModel     -- "Only quality verifier or allowed model may verify"
  | noEscrow               -- "No funds in escrow"
  | payoutFailed           -- "Payment to seller failed"
  | refundFailed           -- "Refund to buyer failed"
  | onlyOwner              -- "Only owner"
  | balanceBelowEscrow     -- "Invariant: balance less than escrowed"
  | amountExceedsFree      -- "Amount exceeds available non-escrow funds"
  | withdrawFailed         -- "Emergency withdraw failed"
  | zeroAddress            -- "Zero address"
  deriving DecidableEq, Repr

/-- The whole storage of the contract plus the surrounding account world:
`contractBal` is the contract's ether balance, `eoa` the balances of all
other accounts. -/
structure State where
  owner : Address
  qualityVerifier : Address
  whitelistEnabled : Bool
  sellerWhitelist : Address → Bool
  modelRegistry : Address → Bool
  modelRegistryEnabled : Bool
  allowModelSelfVerify : Bool
  requestCounter : Nat
  submissionCounter : Nat
  totalEscrowed : Nat
  requests : Nat → Request
  submissions : Nat → Submission
  buyerRequests : Address → List Nat
  sellerSubmissions : Address → List Nat
  verifierHistory : Address → List Nat
  hasSubmittedForRequest : Nat → Address → Bool
  contractBal : Nat
  eoa : Address → Nat

/-- State right after `constructor(_initialVerifier)` was run by
`deployer`, with arbitrary initial account balances. -/
def initState (deployer initialVerifier : Address) (eoa0 : Address → Nat) : State where
  owner := deployer
  qualityVerifier := initialVerifier
  whitelistEnabled := false
  sellerWhitelist := fun _ => false
  modelRegistry := fun _ => false
  modelRegistryEnabled := false
  allowModelSelfVerify := false
  requestCounter := 0
  submissionCounter := 0
  totalEscrowed := 0
  requests := fun _ => defaultRequest
  submissions := fun _ => defaultSubmission
  buyerRequests := fun _ => []
  sellerSubmissions := fun _ => []
  verifierHistory := fun _ => []
  hasSubmittedForRequest := fun _ _ => false
  contractBal := 0
  eoa := eoa0

/-- Solidity mapping assignment `m[k] = r` for the request table. -/
def setReq (g : Nat → Request) (k : Nat) (r : Request) : Nat → Request :=
  fun i => if i = k then r else g i

/-- Solidity mapping assignment `m[k] = s` for the submission table. -/
def setSub (g : Nat → Submission) (k : Nat) (s : Submission) : Nat → Submission :=
  fun i => if i = k then s else g i

/-- Solidity `m[a].push(x)` for an id-list index. -/
def pushAt (g : Address → List Nat) (a : Address) (x : Nat) : Address → List Nat :=
  fun b => if b = a then g b ++ [x] else g b

/-- Solidity `m[k][a] = true` for the dedup index. -/
def setFlagAt (g : Nat → Address → Bool) (k : Nat) (a : Address) :
    Nat → Address → Bool :=
  fun i b => if i = k ∧ b = a then true else g i b

/-- Solidity `m[a] = b` for a boolean mapping. -/
def setBoolAt (g : Address → Bool) (a : Address) (b : Bool) : Address → Bool :=
  fun x => if x = a then b else g x

/-- Credit `v` wei to account `a`. -/
def creditAt (g : Address → Nat) (a : Address) (v : Nat) : Address → Nat :=
  fun b => if b = a then g b + v else g b

/-- Debit `v` wei from account `a`. -/
def debitAt (g : Address → Nat) (a : Address) (v : Nat) : Address → Nat :=
  fun b => if b = a then g b - v else g b

/-- function createRequest(uint8 _formatsMask, string _description)
payable: `value` is `msg.value`, `time` is `block.timestamp`. -/
def createRequest (st : State) (caller : Address) (value : Nat) (mask : Fin 256)
    (descr : String) (time : Nat) : Except Err State :=
  if st.eoa caller < value then .error .insufficientFunds else
  if value = 0 then .error .budgetZero else
  if mask.val = 0 then .error .emptyMask else
  if U256 ≤ st.requestCounter + 1 then .error .arithOverflow else
  if U256 ≤ st.totalEscrowed + value then .error .arithOverflow else
  let rid := st.requestCounter + 1
  let r := { st.requests rid with
    id := rid, buyer := caller, budget := value, formatsMask := mask.val,
    description := descr, status := RequestStatus.OPEN, createdAt := time }
  .ok { st with
    requestCounter := rid
    requests := setReq st.requests rid r
    buyerRequests := pushAt st.buyerRequests caller rid
    totalEscrowed := st.totalEscrowed + value
    contractBal := st.contractBal + value
    eoa := debitAt st.eoa caller value }

/-- function cancelRequest(uint256 _requestId).  `recvOk` is whether the
buyer's account accepts the low-level refund transfer. -/
def cancelRequest (st : State) (caller : Address) (rid : Nat) (recvOk : Bool) :
    Except Err State :=
  let r := st.requests rid
  if r.id = 0 then .error .requestNotFound else
  if r.buyer ≠ caller then .error .onlyBuyer else
  if r.status ≠ RequestStatus.OPEN then .error .requestNotOpen else
  let amount := r.budget
  if st.totalEscrowed < amount then .error .arithOverflow else
  if ¬ (recvOk = true ∧ amount ≤ st.contractBal) then .error .cancelRefundFailed else
  .ok { st with
    requests := setReq st.requests rid { r with status := RequestStatus.CLOSED, budget := 0 }
    totalEscrowed := st.totalEscrowed - amount
    contractBal := st.contractBal - amount
    eoa := creditAt st.eoa r.buyer amount }

/-- function submitDataset(...): records a seller submission for a
request; `time` is `block.timestamp`. -/
def submitDataset (st : State) (caller : Address) (rid : Nat) (fmt : DataFormat)
    (fileSize sampleCount : Nat) (fileExtensions datasetReference : String)
    (model : Address) (time : Nat) : Except Err State :=
  let r := st.requests rid
  if r.id = 0 then .error .requestNotFound else
  if r.status ≠ RequestStatus.OPEN then .error .requestNotOpen else
  if st.whitelistEnabled = true ∧ st.sellerWhitelist caller = false then
    .error .notWhitelisted else
  if st.hasSubmittedForRequest rid caller = true then .error .alreadySubmitted else
  if U256 ≤ st.submissionCounter + 1 then .error .arithOverflow else
  let sid := st.submissionCounter + 1
  let m := if model = 0 then caller else model
  let s := { st.submissions sid with
    id := sid, requestId := rid, seller := caller, model := m, format := fmt,
    fileSize := fileSize, sampleCount := sampleCount,
    fileExtensions := fileExtensions, datasetReference := datasetReference,
    status := SubmissionStatus.PENDING, qualityChecked := false, createdAt := time }
  .ok { st with
    submissionCounter := sid
    submissions := setSub st.submissions sid s
    sellerSubmissions := pushAt st.sellerSubmissions caller sid
    hasSubmittedForRequest := setFlagAt st.hasSubmittedForRequest rid caller }

/-- function verifySubmission(uint256 _submissionId, bool _approved,
uint8 _qualityScore, string _qualityReportCid).  `recvOk` is whether the
payout/refund recipient accepts the low-level transfer.  The source's local
aliases `s` (the submission) and `r` (its request) are written out in full
here, and the identical `require(amount > 0)` / escrow subtraction that the
source repeats inside each branch is checked once before the branch. -/
def verifySubmission (st : State) (caller : Address) (sid : Nat) (approved : Bool)
    (score : Fin 256) (reportCid : String) (recvOk : Bool) : Except Err State :=
  if (st.submissions sid).id = 0 then .error .submissionNotFound else
  if (st.submissions sid).qualityChecked = true then .error .alreadyVerified else
  if (st.requests (st.submissions sid).requestId).id = 0 then
    .error .assocRequestNotFound else
  if (st.requests (st.submissions sid).requestId).status ≠ RequestStatus.OPEN then
    .error .requestFinalized else
  -- if (isModel) { require(allowModelSelfVerify); if (modelRegistryEnabled)
  --   require(modelRegistry[msg.sender]); }  require(isVerifier || isModel);
  if caller = (st.submissions sid).model ∧ st.allowModelSelfVerify = false then
    .error .selfVerifyDisabled else
  if caller = (st.submissions sid).model ∧ st.modelRegistryEnabled = true
      ∧ st.modelRegistry caller = false then
    .error .modelNotRegistered else
  if ¬ (caller = st.qualityVerifier ∨ caller = (st.submissions sid).model) then
    .error .notVerifierOrModel else
  if (st.requests (st.submissions sid).requestId).budget = 0 then .error .noEscrow else
  if st.totalEscrowed < (st.requests (st.submissions sid).requestId).budget then
    .error .arithOverflow else
  if approved = true then
    if ¬ (recvOk = true
        ∧ (st.requests (st.submissions sid).requestId).budget ≤ st.contractBal) then
      .error .payoutFailed else
    .ok { st with
      submissions := setSub st.submissions sid
        { st.submissions sid with
          qualityChecked := true, status := SubmissionStatus.PAID }
      requests := setReq st.requests (st.submissions sid).requestId
        { st.requests (st.submissions sid).requestId with
          qualityScore := score.val, qualityReportCid := reportCid,
          finalizedSubmissionId := sid, status := RequestStatus.CLOSED, budget := 0 }
      verifierHistory := pushAt st.verifierHistory caller sid
      totalEscrowed :=
        st.totalEscrowed - (st.requests (st.submissions sid).requestId).budget
      contractBal :=
        st.contractBal - (st.requests (st.submissions sid).requestId).budget
      eoa := creditAt st.eoa (st.submissions sid).seller
        (st.requests (st.submissions sid).requestId).budget }
  else
    if ¬ (recvOk = true
        ∧ (st.requests (st.submissions sid).requestId).budget ≤ st.contractBal) then
      .error .refundFailed else
    .ok { st with
      submissions := setSub st.submissions sid
        { st.submissions sid with
          qualityChecked := true, status := SubmissionStatus.REFUNDED }
      requests := setReq st.requests (st.submissions sid).requestId
        { st.requests (st.submissions sid).requestId with
          qualityScore := score.val, qualityReportCid := reportCid,
          finalizedSubmissionId := sid, status := RequestStatus.CLOSED, budget := 0 }
      verifierHistory := pushAt st.verifierHistory caller sid
      totalEscrowed :=
        st.totalEscrowed - (st.requests (st.submissions sid).requestId).budget
      contractBal :=
        st.contractBal - (st.requests (st.submissions sid).requestId).budget
      eoa := creditAt st.eoa (st.requests (st.submissions sid).requestId).buyer
        (st.requests (st.submissions sid).requestId).budget }

/-- function setQualityVerifier(address _verifier). -/
def setQualityVerifier (st : State) (caller v : Address) : Except Err State :=
  if caller ≠ st.owner then .error .onlyOwner else
  .ok { st with qualityVerifier := v }

/-- function setModelRegistryEnabled(bool _enabled). -/
def setModelRegistryEnabled (st : State) (caller : Address) (b : Bool) :
    Except Err State :=
  if caller ≠ st.owner then .error .onlyOwner else
  .ok { st with modelRegistryEnabled := b }

/-- function updateModelRegistry(address _model, bool _allowed). -/
def updateModelRegistry (st : State) (caller m : Address) (b : Bool) :
    Except Err State :=
  if caller ≠ st.owner then .error .onlyOwner else
  .ok { st with modelRegistry := setBoolAt st.modelRegistry m b }

/-- function setAllowModelSelfVerify(bool _allow). -/
def setAllowModelSelfVerify (st : State) (caller : Address) (b : Bool) :
    Except Err State :=
  if caller ≠ st.owner then .error .onlyOwner else
  .ok { st with allowModelSelfVerify := b }

/-- function setWhitelistEnabled(bool _enabled). -/
def setWhitelistEnabled (st : State) (caller : Address) (b : Bool) :
    Except Err State :=
  if caller ≠ st.owner then .error .onlyOwner else
  .ok { st with whitelistEnabled := b }

/-- function updateSellerWhitelist(address _seller, bool _allowed). -/
def updateSellerWhitelist (st : State) (caller s : Address) (b : Bool) :
    Except Err State :=
  if caller ≠ st.owner then .error .onlyOwner else
  .ok { st with sellerWhitelist := setBoolAt st.sellerWhitelist s b }

/-- function transferOwnership(address _newOwner). -/
def transferOwnership (st : State) (caller a : Address) : Except Err State :=
  if caller ≠ st.owner then .error .onlyOwner else
  if a = 0 then .error .zeroAddress else
  .ok { st with owner := a }

/-- function emergencyWithdraw(address payable _to, uint256 _amount). -/
def emergencyWithdraw (st : State) (caller dest : Address) (amount : Nat)
    (recvOk : Bool) : Except Err State :=
  if caller ≠ st.owner then .error .onlyOwner else
  if st.contractBal < st.totalEscrowed then .error .balanceBelowEscrow else
  if st.contractBal - st.totalEscrowed < amount then .error .amountExceedsFree else
  if ¬ (recvOk = true ∧ amount ≤ st.contractBal) then .error .withdrawFailed else
  .ok { st with
    contractBal := st.contractBal - amount
    eoa := creditAt st.eoa dest amount }

/-- The payable `receive()`/`fallback()` entry points: plain ether sent to
the contract (e.g. an accidental transfer). -/
def receiveEther (st : State) (sender : Address) (value : Nat) : Except Err State :=
  if st.eoa sender < value then .error .insufficientFunds else
  .ok { st with
    contractBal := st.contractBal + value
    eoa := debitAt st.eoa sender value }

/-- One top-level transaction against the contract, with its caller and the
behaviour of any external transfer recipient (`recvOk`). -/
inductive Op
  | createRequest (caller : Address) (value : Nat) (mask : Fin 256)
      (descr : String) (time : Nat)
  | cancelRequest (caller : Address) (rid : Nat) (recvOk : Bool)
  | submitDataset (caller : Address) (rid : Nat) (fmt : DataFormat)
      (fileSize sampleCount : Nat) (fileExtensions datasetReference : String)
      (model : Address) (time : Nat)
  | verifySubmission (caller : Address) (sid : Nat) (approved : Bool)
      (score : Fin 256) (reportCid : String) (recvOk : Bool)
  | setQualityVerifier (caller v : Address)
  | setModelRegistryEnabled (caller : Address) (b : Bool)
  | updateModelRegistry (caller m : Address) (b : Bool)
  | setAllowModelSelfVerify (caller : Address) (b : Bool)
  | setWhitelistEnabled (caller : Address) (b : Bool)
  | updateSellerWhitelist (caller s : Address) (b : Bool)
  | transferOwnership (caller a : Address)
  | emergencyWithdraw (caller dest : Address) (amount : Nat) (recvOk : Bool)
  | receiveEther (sender : Address) (value : Nat)

/-- Execute one transaction: the next state, or the revert reason. -/
def step (st : State) : Op → Except Err State
  | .createRequest caller value mask descr time =>
      createRequest st caller value mask descr time
  | .cancelRequest caller rid recvOk => cancelRequest st caller rid recvOk
  | .submitDataset caller rid fmt fileSize sampleCount exts ref model time =>
      submitDataset st caller rid fmt fileSize sampleCount exts ref model time
  | .verifySubmission caller sid approved score cid recvOk =>
      verifySubmission st caller sid approved score cid recvOk
  | .setQualityVerifier caller v => setQualityVerifier st caller v
  | .setModelRegistryEnabled caller b => setModelRegistryEnabled st caller b
  | .updateModelRegistry caller m b => updateModelRegistry st caller m b
  | .setAllowModelSelfVerify caller b => setAllowModelSelfVerify st caller b
  | .setWhitelistEnabled caller b => setWhitelistEnabled st caller b
  | .updateSellerWhitelist caller s b => updateSellerWhitelist st caller s b
  | .transferOwnership caller a => transferOwnership st caller a
  | .emergencyWithdraw caller dest amount recvOk =>
      emergencyWithdraw st caller dest amount recvOk
  | .receiveEther sender value => receiveEther st sender value

/-- A reverted transaction leaves the state unchanged. -/
def applyOp (st : State) (op : Op) : State :=
  match step st op with
  | .ok st1 => st1
  | .error _ => st

/-- Run a sequence of transactions. -/
def run (st : State) (ops : List Op) : State := ops.foldl applyOp st

/-- States reachable from some deployment by some transaction sequence. -/
def Reachable (st : State) : Prop :=
  ∃ (deployer initialVerifier : Address) (eoa0 : Address → Nat) (ops : List Op),
    run (initState deployer initialVerifier eoa0) ops = st

/-- Sum of `budget` over the Open requests (request ids run from 1 to
`requestCounter`). -/
def openEscrow (st : State) : Nat :=
  ∑ i in Finset.Icc 1 st.requestCounter,
    (if (st.requests i).status = RequestStatus.OPEN then (st.requests i).budget else 0)

/-- function _formatBit: uint8(1) << uint8(f), in `uint8` arithmetic. -/
def formatBit (f : DataFormat) : Nat := (1 <<< f.toNat) % 256

/-- function _acceptsFormat: (formatsMask & _formatBit(f)) != 0. -/
def acceptsFormat (formatsMask : Nat) (f : DataFormat) : Bool :=
  formatsMask &&& formatBit f ≠ 0

/-- function requestAcceptsFormat (read-only query). -/
def requestAcceptsFormat (st : State) (rid : Nat) (f : DataFormat) :
    Except Err Bool :=
  if (st.requests rid).id = 0 then .error .requestNotFound else
  .ok (acceptsFormat (st.requests rid).formatsMask f)


/-! ## Basic facts about the transaction semantics -/

/-- A transaction that returns `ok` steps to the returned state. -/
theorem applyOp_ok {st st1 : State} {op : Op} (h : step st op = .ok st1) :
    applyOp st op = st1 := by
  unfold applyOp
  rw [h]

/-- A reverted transaction leaves the state unchanged. -/
theorem applyOp_error {st : State} {op : Op} {e : Err} (h : step st op = .error e) :
    applyOp st op = st := by
  unfold applyOp
  rw [h]

/-- The inductive invariant of the contract: the escrow accounting matches
the Open requests, ids are exactly the counter range, an existing request
is Open exactly when its budget is positive, and custody covers escrow. -/
structure Inv (st : State) : Prop where
  escrow_eq : st.totalEscrowed = openEscrow st
  req_range : ∀ i, (st.requests i).id ≠ 0 ↔ (1 ≤ i ∧ i ≤ st.requestCounter)
  sub_range : ∀ i, (st.submissions i).id ≠ 0 ↔ (1 ≤ i ∧ i ≤ st.submissionCounter)
  open_pos : ∀ i, (st.requests i).id ≠ 0 →
    ((st.requests i).status = RequestStatus.OPEN ↔ 0 < (st.requests i).budget)
  bal_ge : st.totalEscrowed ≤ st.contractBal

/-- The deployment state satisfies the invariant. -/
theorem inv_init (deployer initialVerifier : Address) (eoa0 : Address → Nat) :
    Inv (initState deployer initialVerifier eoa0) := by
  refine ⟨?_, ?_, ?_, ?_, ?_⟩
  · simp [initState, openEscrow]
  · intro i
    simp only [initState, defaultRequest]
    omega
  · intro i
    simp only [initState, defaultSubmission]
    omega
  · intro i hi
    simp [initState, defaultRequest] at hi
  · simp [initState]

/-- Pointwise evaluation of `setReq` at the updated key. -/
theorem setReq_same (g : Nat → Request) (k : Nat) (r : Request) :
    setReq g k r k = r := if_pos rfl

/-- Pointwise evaluation of `setReq` away from the updated key. -/
theorem setReq_ne (g : Nat → Request) (k : Nat) (r : Request) (i : Nat)
    (h : i ≠ k) : setReq g k r i = g i := if_neg h

/-- Pointwise evaluation of `setSub` at the updated key. -/
theorem setSub_same (g : Nat → Submission) (k : Nat) (s : Submission) :
    setSub g k s k = s := if_pos rfl

/-- Pointwise evaluation of `setSub` away from the updated key. -/
theorem setSub_ne (g : Nat → Submission) (k : Nat) (s : Submission) (i : Nat)
    (h : i ≠ k) : setSub g k s i = g i := if_neg h

/-- Overwriting one in-range request changes the Open-budget sum by
swapping that request's contribution. -/
theorem sum_open_set {g : Nat → Request} {c rid : Nat} {rC : Request}
    (hmem : rid ∈ Finset.Icc 1 c) :
    (∑ i in Finset.Icc 1 c,
        if (setReq g rid rC i).status = RequestStatus.OPEN
        then (setReq g rid rC i).budget else 0)
    = (∑ i in Finset.Icc 1 c,
        if (g i).status = RequestStatus.OPEN then (g i).budget else 0)
      + (if rC.status = RequestStatus.OPEN then rC.budget else 0)
      - (if (g rid).status = RequestStatus.OPEN then (g rid).budget else 0) := by
  rw [← Finset.add_sum_erase (Finset.Icc 1 c)
        (fun i => if (setReq g rid rC i).status = RequestStatus.OPEN
                  then (setReq g rid rC i).budget else 0) hmem,
      ← Finset.add_sum_erase (Finset.Icc 1 c)
        (fun i => if (g i).status = RequestStatus.OPEN then (g i).budget else 0) hmem]
  have e3 : (∑ i in (Finset.Icc 1 c).erase rid,
        if (setReq g rid rC i).status = RequestStatus.OPEN
        then (setReq g rid rC i).budget else 0)
      = ∑ i in (Finset.Icc 1 c).erase rid,
        if (g i).status = RequestStatus.OPEN then (g i).budget else 0 :=
    Finset.sum_congr rfl fun i hi => by
      rw [setReq_ne g rid rC i (Finset.ne_of_mem_erase hi)]
  simp only [e3, setReq_same]
  omega

/-- Appending a fresh request at index `c+1` extends the Open-budget sum
by its contribution. -/
theorem sum_open_extend {g : Nat → Request} {c : Nat} {r : Request} :
    (∑ i in Finset.Icc 1 (c + 1),
        if (setReq g (c + 1) r i).status = RequestStatus.OPEN
        then (setReq g (c + 1) r i).budget else 0)
    = (if r.status = RequestStatus.OPEN then r.budget else 0)
      + ∑ i in Finset.Icc 1 c,
          if (g i).status = RequestStatus.OPEN then (g i).budget else 0 := by
  have hins : Finset.Icc 1 (c + 1) = insert (c + 1) (Finset.Icc 1 c) := by
    ext x
    simp only [Finset.mem_Icc, Finset.mem_insert]
    omega
  have hnot : (c + 1) ∉ Finset.Icc 1 c := by
    simp only [Finset.mem_Icc]
    omega
  rw [hins, Finset.sum_insert hnot, setReq_same]
  congr 1
  refine Finset.sum_congr rfl fun i hi => ?_
  rw [setReq_ne g (c + 1) r i (by have := Finset.mem_Icc.mp hi; omega)]

/-! ## Invariant preservation, operation by operation -/

theorem inv_setQualityVerifier {st st1 : State} {caller v : Address} (h : Inv st)
    (hok : setQualityVerifier st caller v = .ok st1) : Inv st1 := by
  unfold setQualityVerifier at hok
  split_ifs at hok
  cases hok
  exact ⟨h.escrow_eq, h.req_range, h.sub_range, h.open_pos, h.bal_ge⟩

theorem inv_setModelRegistryEnabled {st st1 : State} {caller : Address} {b : Bool}
    (h : Inv st) (hok : setModelRegistryEnabled st caller b = .ok st1) : Inv st1 := by
  unfold setModelRegistryEnabled at hok
  split_ifs at hok
  cases hok
  exact ⟨h.escrow_eq, h.req_range, h.sub_range, h.open_pos, h.bal_ge⟩

theorem inv_updateModelRegistry {st st1 : State} {caller m : Address} {b : Bool}
    (h : Inv st) (hok : updateModelRegistry st caller m b = .ok st1) : Inv st1 := by
  unfold updateModelRegistry at hok
  split_ifs at hok
  cases hok
  exact ⟨h.escrow_eq, h.req_range, h.sub_range, h.open_pos, h.bal_ge⟩

theorem inv_setAllowModelSelfVerify {st st1 : State} {caller : Address} {b : Bool}
    (h : Inv st) (hok : setAllowModelSelfVerify st caller b = .ok st1) : Inv st1 := by
  unfold setAllowModelSelfVerify at hok
  split_ifs at hok
  cases hok
  exact ⟨h.escrow_eq, h.req_range, h.sub_range, h.open_pos, h.bal_ge⟩

theorem inv_setWhitelistEnabled {st st1 : State} {caller : Address} {b : Bool}
    (h : Inv st) (hok : setWhitelistEnabled st caller b = .ok st1) : Inv st1 := by
  unfold setWhitelistEnabled at hok
  split_ifs at hok
  cases hok
  exact ⟨h.escrow_eq, h.req_range, h.sub_range, h.open_pos, h.bal_ge⟩

theorem inv_updateSellerWhitelist {st st1 : State} {caller s : Address} {b : Bool}
    (h : Inv st) (hok : updateSellerWhitelist st caller s b = .ok st1) : Inv st1 := by
  unfold updateSellerWhitelist at hok
  split_ifs at hok
  cases hok
  exact ⟨h.escrow_eq, h.req_range, h.sub_range, h.open_pos, h.bal_ge⟩

theorem inv_transferOwnership {st st1 : State} {caller a : Address}
    (h : Inv st) (hok : transferOwnership st caller a = .ok st1) : Inv st1 := by
  unfold transferOwnership at hok
  split_ifs at hok
  cases hok
  exact ⟨h.escrow_eq, h.req_range, h.sub_range, h.open_pos, h.bal_ge⟩

theorem inv_receiveEther {st st1 : State} {sender : Address} {value : Nat}
    (h : Inv st) (hok : receiveEther st sender value = .ok st1) : Inv st1 := by
  unfold receiveEther at hok
  split_ifs at hok
  cases hok
  exact ⟨h.escrow_eq, h.req_range, h.sub_range, h.open_pos,
    le_trans h.bal_ge (Nat.le_add_right _ _)⟩

theorem inv_emergencyWithdraw {st st1 : State} {caller dest : Address}
    {amount : Nat} {recvOk : Bool}
    (h : Inv st) (hok : emergencyWithdraw st caller dest amount recvOk = .ok st1) :
    Inv st1 := by
  unfold emergencyWithdraw at hok
  split_ifs at hok with h1 h2 h3 h4
  cases hok
  exact ⟨h.escrow_eq, h.req_range, h.sub_range, h.open_pos, by
    simp only []
    omega⟩


theorem inv_createRequest {st st1 : State} {caller : Address} {value : Nat}
    {mask : Fin 256} {descr : String} {time : Nat} (h : Inv st)
    (hok : createRequest st caller value mask descr time = .ok st1) : Inv st1 := by
  simp only [createRequest] at hok
  split_ifs at hok with h1 h2 h3 h4 h5 <;> cases hok
  refine ⟨?_, ?_, h.sub_range, ?_, ?_⟩
  · simp only [openEscrow]
    rw [sum_open_extend]
    have he := h.escrow_eq
    simp only [openEscrow] at he
    simp only [reduceIte]
    omega
  · intro i
    by_cases hi : i = st.requestCounter + 1
    · subst hi
      simp only [setReq_same]
      omega
    · simp only [setReq_ne _ _ _ _ hi]
      have := h.req_range i
      omega
  · intro i
    by_cases hi : i = st.requestCounter + 1
    · subst hi
      simp only [setReq_same]
      intro _
      simp only [true_iff, eq_self_iff_true]
      omega
    · simp only [setReq_ne _ _ _ _ hi]
      exact h.open_pos i
  · have := h.bal_ge
    show st.totalEscrowed + value ≤ st.contractBal + value
    omega

theorem inv_cancelRequest {st st1 : State} {caller : Address} {rid : Nat}
    {recvOk : Bool} (h : Inv st)
    (hok : cancelRequest st caller rid recvOk = .ok st1) : Inv st1 := by
  simp only [cancelRequest] at hok
  split_ifs at hok with h1 h2 h3 h4 h5 <;> cases hok
  have hid : (st.requests rid).id ≠ 0 := h1
  have hopen : (st.requests rid).status = RequestStatus.OPEN := not_not.mp h3
  have hmem : rid ∈ Finset.Icc 1 st.requestCounter :=
    Finset.mem_Icc.mpr ((h.req_range rid).mp hid)
  refine ⟨?_, ?_, h.sub_range, ?_, ?_⟩
  · simp only [openEscrow]
    rw [sum_open_set hmem]
    have he := h.escrow_eq
    simp only [openEscrow] at he
    rw [if_pos hopen]
    simp only [ite_self, Nat.add_zero]
    rw [he]
  · intro i
    by_cases hi : i = rid
    · subst hi
      have := h.req_range i
      simp only [setReq_same]
      omega
    · simp only [setReq_ne _ _ _ _ hi]
      have := h.req_range i
      omega
  · intro i
    by_cases hi : i = rid
    · subst hi
      simp only [setReq_same]
      intro _
      simp
    · simp only [setReq_ne _ _ _ _ hi]
      exact h.open_pos i
  · have := h.bal_ge
    show st.totalEscrowed - (st.requests rid).budget
      ≤ st.contractBal - (st.requests rid).budget
    omega

theorem inv_submitDataset {st st1 : State} {caller : Address} {rid : Nat}
    {fmt : DataFormat} {fileSize sampleCount : Nat} {exts ref : String}
    {model : Address} {time : Nat} (h : Inv st)
    (hok : submitDataset st caller rid fmt fileSize sampleCount exts ref model time
      = .ok st1) : Inv st1 := by
  simp only [submitDataset] at hok
  split_ifs at hok with h1 h2 h3 h4 h5 h6 <;> cases hok
  all_goals
    refine ⟨h.escrow_eq, h.req_range, ?_, h.open_pos, h.bal_ge⟩
  all_goals intro i
  all_goals
    by_cases hi : i = st.submissionCounter + 1
  all_goals try (
    subst hi
    simp only [setSub_same]
    omega)
  all_goals (
    simp only [setSub_ne _ _ _ _ hi]
    have := h.sub_range i
    omega)

/-- The settlement state written by either branch of `verifySubmission`
preserves the invariant: the touched request is closed with budget zero,
ids are kept, and escrow and custody drop by the settled budget. -/
theorem inv_settle {st : State} (h : Inv st) {sid : Nat} {caller who : Address}
    {sNew : Submission} {rC : Request}
    (hid : (st.requests (st.submissions sid).requestId).id ≠ 0)
    (hopen : (st.requests (st.submissions sid).requestId).status = RequestStatus.OPEN)
    (hNid : sNew.id = (st.submissions sid).id)
    (hrCid : rC.id = (st.requests (st.submissions sid).requestId).id)
    (hrCst : rC.status = RequestStatus.CLOSED)
    (hrCb : rC.budget = 0) :
    Inv { st with
      submissions := setSub st.submissions sid sNew
      requests := setReq st.requests (st.submissions sid).requestId rC
      verifierHistory := pushAt st.verifierHistory caller sid
      totalEscrowed :=
        st.totalEscrowed - (st.requests (st.submissions sid).requestId).budget
      contractBal :=
        st.contractBal - (st.requests (st.submissions sid).requestId).budget
      eoa := creditAt st.eoa who (st.requests (st.submissions sid).requestId).budget } := by
  have hmem : (st.submissions sid).requestId ∈ Finset.Icc 1 st.requestCounter :=
    Finset.mem_Icc.mpr ((h.req_range _).mp hid)
  refine ⟨?_, ?_, ?_, ?_, ?_⟩
  · simp only [openEscrow]
    rw [sum_open_set hmem]
    have he := h.escrow_eq
    simp only [openEscrow] at he
    rw [if_pos hopen]
    simp only [hrCst, hrCb, ite_self, Nat.add_zero]
    rw [he]
  · intro i
    by_cases hi : i = (st.submissions sid).requestId
    · subst hi
      simp only [setReq_same]
      rw [hrCid]
      exact h.req_range _
    · simp only [setReq_ne _ _ _ _ hi]
      exact h.req_range i
  · intro i
    by_cases hi : i = sid
    · subst hi
      simp only [setSub_same]
      rw [hNid]
      exact h.sub_range _
    · simp only [setSub_ne _ _ _ _ hi]
      exact h.sub_range i
  · intro i
    by_cases hi : i = (st.submissions sid).requestId
    · subst hi
      simp only [setReq_same, hrCst, hrCb]
      intro _
      simp
    · simp only [setReq_ne _ _ _ _ hi]
      exact h.open_pos i
  · show st.totalEscrowed - (st.requests (st.submissions sid).requestId).budget
      ≤ st.contractBal - (st.requests (st.submissions sid).requestId).budget
    have := h.bal_ge
    omega

theorem inv_verifySubmission {st st1 : State} {caller : Address} {sid : Nat}
    {approved : Bool} {score : Fin 256} {reportCid : String} {recvOk : Bool}
    (h : Inv st)
    (hok : verifySubmission st caller sid approved score reportCid recvOk = .ok st1) :
    Inv st1 := by
  unfold verifySubmission at hok
  by_cases h1 : (st.submissions sid).id = 0
  · rw [if_pos h1] at hok
    exact Except.noConfusion hok
  rw [if_neg h1] at hok
  by_cases h2 : (st.submissions sid).qualityChecked = true
  · rw [if_pos h2] at hok
    exact Except.noConfusion hok
  rw [if_neg h2] at hok
  by_cases h3 : (st.requests (st.submissions sid).requestId).id = 0
  · rw [if_pos h3] at hok
    exact Except.noConfusion hok
  rw [if_neg h3] at hok
  by_cases h4 : (st.requests (st.submissions sid).requestId).status ≠ RequestStatus.OPEN
  · rw [if_pos h4] at hok
    exact Except.noConfusion hok
  rw [if_neg h4] at hok
  by_cases h5 : caller = (st.submissions sid).model ∧ st.allowModelSelfVerify = false
  · rw [if_pos h5] at hok
    exact Except.noConfusion hok
  rw [if_neg h5] at hok
  by_cases h6 : caller = (st.submissions sid).model ∧ st.modelRegistryEnabled = true
      ∧ st.modelRegistry caller = false
  · rw [if_pos h6] at hok
    exact Except.noConfusion hok
  rw [if_neg h6] at hok
  by_cases h7 : ¬ (caller = st.qualityVerifier ∨ caller = (st.submissions sid).model)
  · rw [if_pos h7] at hok
    exact Except.noConfusion hok
  rw [if_neg h7] at hok
  by_cases h8 : (st.requests (st.submissions sid).requestId).budget = 0
  · rw [if_pos h8] at hok
    exact Except.noConfusion hok
  rw [if_neg h8] at hok
  by_cases h9 : st.totalEscrowed < (st.requests (st.submissions sid).requestId).budget
  · rw [if_pos h9] at hok
    exact Except.noConfusion hok
  rw [if_neg h9] at hok
  by_cases h10 : approved = true
  · rw [if_pos h10] at hok
    by_cases h11 : ¬ (recvOk = true
        ∧ (st.requests (st.submissions sid).requestId).budget ≤ st.contractBal)
    · rw [if_pos h11] at hok
      exact Except.noConfusion hok
    rw [if_neg h11] at hok
    cases hok
    exact inv_settle h h3 (not_not.mp h4) rfl rfl rfl rfl
  · rw [if_neg h10] at hok
    by_cases h12 : ¬ (recvOk = true
        ∧ (st.requests (st.submissions sid).requestId).budget ≤ st.contractBal)
    · rw [if_pos h12] at hok
      exact Except.noConfusion hok
    rw [if_neg h12] at hok
    cases hok
    exact inv_settle h h3 (not_not.mp h4) rfl rfl rfl rfl

/-- Every transaction that commits preserves the invariant. -/
theorem inv_step {st st1 : State} {op : Op} (h : Inv st)
    (hok : step st op = .ok st1) : Inv st1 := by
  cases op
  case createRequest caller value mask descr time => exact inv_createRequest h hok
  case cancelRequest caller rid recvOk => exact inv_cancelRequest h hok
  case submitDataset a b c d e f g i j => exact inv_submitDataset h hok
  case verifySubmission a b c d e f => exact inv_verifySubmission h hok
  case setQualityVerifier a b => exact inv_setQualityVerifier h hok
  case setModelRegistryEnabled a b => exact inv_setModelRegistryEnabled h hok
  case updateModelRegistry a b c => exact inv_updateModelRegistry h hok
  case setAllowModelSelfVerify a b => exact inv_setAllowModelSelfVerify h hok
  case setWhitelistEnabled a b => exact inv_setWhitelistEnabled h hok
  case updateSellerWhitelist a b c => exact inv_updateSellerWhitelist h hok
  case transferOwnership a b => exact inv_transferOwnership h hok
  case emergencyWithdraw a b c d => exact inv_emergencyWithdraw h hok
  case receiveEther a b => exact inv_receiveEther h hok

/-- Every transaction, committed or reverted, preserves the invariant. -/
theorem inv_applyOp {st : State} (h : Inv st) (op : Op) : Inv (applyOp st op) := by
  cases hE : step st op with
  | error e =>
      rw [applyOp_error hE]
      exact h
  | ok s1 =>
      rw [applyOp_ok hE]
      exact inv_step h hE

/-- The invariant holds along any transaction sequence. -/
theorem inv_run {st : State} (h : Inv st) (ops : List Op) : Inv (run st ops) := by
  induction ops generalizing st with
  | nil => exact h
  | cons op rest ih => exact ih (inv_applyOp h op)

/-- Every reachable state satisfies the invariant. -/
theorem reachable_inv {st : State} (h : Reachable st) : Inv st := by
  obtain ⟨d, v, e0, ops, rfl⟩ := h
  exact inv_run (inv_init d v e0) ops


/-! ## Authorization and inversion lemmas -/

/-- The authorization condition `verifySubmission` actually enforces: the
caller must be the configured verifier or the submission's model, and a
caller who IS the model must additionally satisfy the self-verify and
registry rules (even when it is also the configured verifier). -/
def authOk (st : State) (caller : Address) (sid : Nat) : Prop :=
  (caller = (st.submissions sid).model →
    st.allowModelSelfVerify = true
      ∧ (st.modelRegistryEnabled = true → st.modelRegistry caller = true))
  ∧ (caller = st.qualityVerifier ∨ caller = (st.submissions sid).model)

instance (st : State) (caller : Address) (sid : Nat) :
    Decidable (authOk st caller sid) := by
  unfold authOk
  infer_instance

/-- Full characterisation of a committed `verifySubmission` call. -/
theorem verify_ok_inversion {st st1 : State} {caller : Address} {sid : Nat}
    {approved : Bool} {score : Fin 256} {reportCid : String} {recvOk : Bool}
    (hok : verifySubmission st caller sid approved score reportCid recvOk = .ok st1) :
    (st.submissions sid).id ≠ 0
    ∧ (st.submissions sid).qualityChecked = false
    ∧ (st.requests (st.submissions sid).requestId).id ≠ 0
    ∧ (st.requests (st.submissions sid).requestId).status = RequestStatus.OPEN
    ∧ authOk st caller sid
    ∧ (st.requests (st.submissions sid).requestId).budget ≠ 0
    ∧ (st.requests (st.submissions sid).requestId).budget ≤ st.totalEscrowed
    ∧ recvOk = true
    ∧ (st.requests (st.submissions sid).requestId).budget ≤ st.contractBal
    ∧ st1 = { st with
        submissions := setSub st.submissions sid
          { st.submissions sid with
            qualityChecked := true,
            status := if approved = true then SubmissionStatus.PAID
                      else SubmissionStatus.REFUNDED }
        requests := setReq st.requests (st.submissions sid).requestId
          { st.requests (st.submissions sid).requestId with
            qualityScore := score.val, qualityReportCid := reportCid,
            finalizedSubmissionId := sid, status := RequestStatus.CLOSED, budget := 0 }
        verifierHistory := pushAt st.verifierHistory caller sid
        totalEscrowed :=
          st.totalEscrowed - (st.requests (st.submissions sid).requestId).budget
        contractBal :=
          st.contractBal - (st.requests (st.submissions sid).requestId).budget
        eoa := creditAt st.eoa
          (if approved = true then (st.submissions sid).seller
           else (st.requests (st.submissions sid).requestId).buyer)
          (st.requests (st.submissions sid).requestId).budget } := by
  unfold verifySubmission at hok
  by_cases h1 : (st.submissions sid).id = 0
  · rw [if_pos h1] at hok
    exact Except.noConfusion hok
  rw [if_neg h1] at hok
  by_cases h2 : (st.submissions sid).qualityChecked = true
  · rw [if_pos h2] at hok
    exact Except.noConfusion hok
  rw [if_neg h2] at hok
  by_cases h3 : (st.requests (st.submissions sid).requestId).id = 0
  · rw [if_pos h3] at hok
    exact Except.noConfusion hok
  rw [if_neg h3] at hok
  by_cases h4 : (st.requests (st.submissions sid).requestId).status ≠ RequestStatus.OPEN
  · rw [if_pos h4] at hok
    exact Except.noConfusion hok
  rw [if_neg h4] at hok
  by_cases h5 : caller = (st.submissions sid).model ∧ st.allowModelSelfVerify = false
  · rw [if_pos h5] at hok
    exact Except.noConfusion hok
  rw [if_neg h5] at hok
  by_cases h6 : caller = (st.submissions sid).model ∧ st.modelRegistryEnabled = true
      ∧ st.modelRegistry caller = false
  · rw [if_pos h6] at hok
    exact Except.noConfusion hok
  rw [if_neg h6] at hok
  by_cases h7 : ¬ (caller = st.qualityVerifier ∨ caller = (st.submissions sid).model)
  · rw [if_pos h7] at hok
    exact Except.noConfusion hok
  rw [if_neg h7] at hok
  by_cases h8 : (st.requests (st.submissions sid).requestId).budget = 0
  · rw [if_pos h8] at hok
    exact Except.noConfusion hok
  rw [if_neg h8] at hok
  by_cases h9 : st.totalEscrowed < (st.requests (st.submissions sid).requestId).budget
  · rw [if_pos h9] at hok
    exact Except.noConfusion hok
  rw [if_neg h9] at hok
  have hauth : authOk st caller sid := by
    constructor
    · intro hm
      constructor
      · by_cases ha : st.allowModelSelfVerify = true
        · exact ha
        · exact absurd ⟨hm, Bool.not_eq_true _ ▸ Bool.eq_false_iff.mpr ha⟩ h5
      · intro hre
        by_cases hr : st.modelRegistry caller = true
        · exact hr
        · exact absurd ⟨hm, hre, Bool.eq_false_iff.mpr hr⟩ h6
    · exact not_not.mp h7
  cases approved with
  | true =>
      simp only [if_pos rfl] at hok ⊢
      by_cases h11 : ¬ (recvOk = true
          ∧ (st.requests (st.submissions sid).requestId).budget ≤ st.contractBal)
      · rw [if_pos h11] at hok
        exact Except.noConfusion hok
      rw [if_neg h11] at hok
      have h11p := not_not.mp h11
      cases hok
      exact ⟨h1, Bool.not_eq_true _ ▸ h2, h3, not_not.mp h4, hauth, h8,
        Nat.le_of_not_lt h9, h11p.1, h11p.2, rfl⟩
  | false =>
      have hft : (false = true) = False := by simp
      simp only [hft, if_false] at hok ⊢
      by_cases h12 : ¬ (recvOk = true
          ∧ (st.requests (st.submissions sid).requestId).budget ≤ st.contractBal)
      · rw [if_pos h12] at hok
        exact Except.noConfusion hok
      rw [if_neg h12] at hok
      have h12p := not_not.mp h12
      cases hok
      exact ⟨h1, Bool.not_eq_true _ ▸ h2, h3, not_not.mp h4, hauth, h8,
        Nat.le_of_not_lt h9, h12p.1, h12p.2, rfl⟩

/-- A committed `submitDataset` call had an Open request, no prior
submission by this seller, and records the dedup flag. -/
theorem submit_ok_flag {st st1 : State} {caller : Address} {rid : Nat}
    {fmt : DataFormat} {fileSize sampleCount : Nat} {exts ref : String}
    {model : Address} {time : Nat}
    (hok : submitDataset st caller rid fmt fileSize sampleCount exts ref model time
      = .ok st1) :
    (st.requests rid).id ≠ 0
    ∧ (st.requests rid).status = RequestStatus.OPEN
    ∧ st.hasSubmittedForRequest rid caller = false
    ∧ st1.hasSubmittedForRequest rid caller = true
    ∧ st1.requests = st.requests
    ∧ st1.requestCounter = st.requestCounter := by
  simp only [submitDataset] at hok
  split_ifs at hok with h1 h2 h3 h4 h5 h6 <;> cases hok
  all_goals refine ⟨h1, not_not.mp h2, ?_, ?_, rfl, rfl⟩
  all_goals try (
    cases hfl : st.hasSubmittedForRequest rid caller
    · rfl
    · exact absurd hfl h4)
  all_goals simp [setFlagAt]

/-- Per-transaction effects needed by the frozen-record and at-most-once
claims: counters grow, a Closed request's record is untouched, a finalised
submission's record is untouched, and the dedup flag never resets. -/
theorem step_effects {st st1 : State} {op : Op} (h : Inv st)
    (hok : step st op = .ok st1) :
    st.requestCounter ≤ st1.requestCounter
    ∧ st.submissionCounter ≤ st1.submissionCounter
    ∧ (∀ rid, (st.requests rid).id ≠ 0 →
        (st.requests rid).status = RequestStatus.CLOSED →
        st1.requests rid = st.requests rid)
    ∧ (∀ sid, (st.submissions sid).id ≠ 0 →
        (st.submissions sid).qualityChecked = true →
        st1.submissions sid = st.submissions sid)
    ∧ (∀ rid a, st.hasSubmittedForRequest rid a = true →
        st1.hasSubmittedForRequest rid a = true) := by
  cases op with
  | createRequest caller value mask descr time =>
      simp only [step, createRequest] at hok
      split_ifs at hok with h1 h2 h3 h4 h5 <;> cases hok
      refine ⟨Nat.le_succ _, Nat.le_refl _, ?_, fun _ _ _ => rfl, fun _ _ hh => hh⟩
      intro rid hidr _
      have hr := (h.req_range rid).mp hidr
      exact setReq_ne _ _ _ _ (by omega)
  | cancelRequest caller rid recvOk =>
      simp only [cancelRequest, step] at hok
      split_ifs at hok with h1 h2 h3 h4 h5 <;> cases hok
      refine ⟨Nat.le_refl _, Nat.le_refl _, ?_, fun _ _ _ => rfl, fun _ _ hh => hh⟩
      intro rid2 _ hcl
      have hopen := not_not.mp h3
      by_cases he : rid2 = rid
      · subst he
        rw [hopen] at hcl
        exact absurd hcl (by decide)
      · exact setReq_ne _ _ _ _ he
  | submitDataset caller rid fmt fileSize sampleCount exts ref model time =>
      simp only [step, submitDataset] at hok
      split_ifs at hok with h1 h2 h3 h4 h5 h6 <;> cases hok
      all_goals refine ⟨Nat.le_refl _, Nat.le_succ _, fun _ _ _ => rfl, ?_, ?_⟩
      all_goals try (
        intro sid hids _
        have hs := (h.sub_range sid).mp hids
        exact setSub_ne _ _ _ _ (by omega))
      all_goals (
        intro rid2 a hh
        simp only [setFlagAt]
        split
        · rfl
        · exact hh)
  | verifySubmission caller sid approved score reportCid recvOk =>
      obtain ⟨hid, hchk, hrid, hopen, -, -, -, -, -, rfl⟩ :=
        @verify_ok_inversion st st1 caller sid approved score reportCid recvOk hok
      refine ⟨Nat.le_refl _, Nat.le_refl _, ?_, ?_, fun _ _ hh => hh⟩
      · intro rid2 _ hcl
        by_cases he : rid2 = (st.submissions sid).requestId
        · subst he
          rw [hopen] at hcl
          exact absurd hcl (by decide)
        · exact setReq_ne _ _ _ _ he
      · intro sid2 _ hchk2
        by_cases he : sid2 = sid
        · subst he
          rw [hchk2] at hchk
          exact absurd hchk (by decide)
        · exact setSub_ne _ _ _ _ he
  | setQualityVerifier a b =>
      simp only [step, setQualityVerifier] at hok
      split_ifs at hok <;> cases hok
      exact ⟨Nat.le_refl _, Nat.le_refl _, fun _ _ _ => rfl, fun _ _ _ => rfl,
        fun _ _ hh => hh⟩
  | setModelRegistryEnabled a b =>
      simp only [step, setModelRegistryEnabled] at hok
      split_ifs at hok <;> cases hok
      exact ⟨Nat.le_refl _, Nat.le_refl _, fun _ _ _ => rfl, fun _ _ _ => rfl,
        fun _ _ hh => hh⟩
  | updateModelRegistry a b c =>
      simp only [step, updateModelRegistry] at hok
      split_ifs at hok <;> cases hok
      exact ⟨Nat.le_refl _, Nat.le_refl _, fun _ _ _ => rfl, fun _ _ _ => rfl,
        fun _ _ hh => hh⟩
  | setAllowModelSelfVerify a b =>
      simp only [step, setAllowModelSelfVerify] at hok
      split_ifs at hok <;> cases hok
      exact ⟨Nat.le_refl _, Nat.le_refl _, fun _ _ _ => rfl, fun _ _ _ => rfl,
        fun _ _ hh => hh⟩
  | setWhitelistEnabled a b =>
      simp only [step, setWhitelistEnabled] at hok
      split_ifs at hok <;> cases hok
      exact ⟨Nat.le_refl _, Nat.le_refl _, fun _ _ _ => rfl, fun _ _ _ => rfl,
        fun _ _ hh => hh⟩
  | updateSellerWhitelist a b c =>
      simp only [step, updateSellerWhitelist] at hok
      split_ifs at hok <;> cases hok
      exact ⟨Nat.le_refl _, Nat.le_refl _, fun _ _ _ => rfl, fun _ _ _ => rfl,
        fun _ _ hh => hh⟩
  | transferOwnership a b =>
      simp only [step, transferOwnership] at hok
      split_ifs at hok <;> cases hok
      exact ⟨Nat.le_refl _, Nat.le_refl _, fun _ _ _ => rfl, fun _ _ _ => rfl,
        fun _ _ hh => hh⟩
  | emergencyWithdraw a b c d =>
      simp only [step, emergencyWithdraw] at hok
      split_ifs at hok <;> cases hok
      exact ⟨Nat.le_refl _, Nat.le_refl _, fun _ _ _ => rfl, fun _ _ _ => rfl,
        fun _ _ hh => hh⟩
  | receiveEther a b =>
      simp only [step, receiveEther] at hok
      split_ifs at hok <;> cases hok
      exact ⟨Nat.le_refl _, Nat.le_refl _, fun _ _ _ => rfl, fun _ _ _ => rfl,
        fun _ _ hh => hh⟩


/-- `step_effects` lifted to a possibly-reverting transaction. -/
theorem applyOp_effects {st : State} (h : Inv st) (op : Op) :
    st.requestCounter ≤ (applyOp st op).requestCounter
    ∧ st.submissionCounter ≤ (applyOp st op).submissionCounter
    ∧ (∀ rid, (st.requests rid).id ≠ 0 →
        (st.requests rid).status = RequestStatus.CLOSED →
        (applyOp st op).requests rid = st.requests rid)
    ∧ (∀ sid, (st.submissions sid).id ≠ 0 →
        (st.submissions sid).qualityChecked = true →
        (applyOp st op).submissions sid = st.submissions sid)
    ∧ (∀ rid a, st.hasSubmittedForRequest rid a = true →
        (applyOp st op).hasSubmittedForRequest rid a = true) := by
  cases hE : step st op with
  | error e =>
      rw [applyOp_error hE]
      exact ⟨Nat.le_refl _, Nat.le_refl _, fun _ _ _ => rfl, fun _ _ _ => rfl,
        fun _ _ hh => hh⟩
  | ok s1 =>
      rw [applyOp_ok hE]
      exact step_effects h hE

/-- `step_effects` lifted to whole transaction sequences. -/
theorem run_effects {st : State} (h : Inv st) (ops : List Op) :
    st.requestCounter ≤ (run st ops).requestCounter
    ∧ st.submissionCounter ≤ (run st ops).submissionCounter
    ∧ (∀ rid, (st.requests rid).id ≠ 0 →
        (st.requests rid).status = RequestStatus.CLOSED →
        (run st ops).requests rid = st.requests rid)
    ∧ (∀ sid, (st.submissions sid).id ≠ 0 →
        (st.submissions sid).qualityChecked = true →
        (run st ops).submissions sid = st.submissions sid)
    ∧ (∀ rid a, st.hasSubmittedForRequest rid a = true →
        (run st ops).hasSubmittedForRequest rid a = true) := by
  induction ops generalizing st with
  | nil =>
      exact ⟨Nat.le_refl _, Nat.le_refl _, fun _ _ _ => rfl, fun _ _ _ => rfl,
        fun _ _ hh => hh⟩
  | cons op rest ih =>
      obtain ⟨c1, c2, c3, c4, c5⟩ := applyOp_effects h op
      obtain ⟨d1, d2, d3, d4, d5⟩ := ih (inv_applyOp h op)
      refine ⟨le_trans c1 d1, le_trans c2 d2, ?_, ?_, ?_⟩
      · intro rid hid hcl
        have e := c3 rid hid hcl
        have hid1 : ((applyOp st op).requests rid).id ≠ 0 := by
          rw [e]
          exact hid
        have hcl1 : ((applyOp st op).requests rid).status = RequestStatus.CLOSED := by
          rw [e]
          exact hcl
        show (run (applyOp st op) rest).requests rid = st.requests rid
        rw [d3 rid hid1 hcl1, e]
      · intro sid hid hchk
        have e := c4 sid hid hchk
        have hid1 : ((applyOp st op).submissions sid).id ≠ 0 := by
          rw [e]
          exact hid
        have hchk1 : ((applyOp st op).submissions sid).qualityChecked = true := by
          rw [e]
          exact hchk
        show (run (applyOp st op) rest).submissions sid = st.submissions sid
        rw [d4 sid hid1 hchk1, e]
      · intro rid a hh
        exact d5 rid a (c5 rid a hh)

/-- The invariant holds at every point of a run started at a reachable
state. -/
theorem reachable_run {st : State} (h : Reachable st) (ops : List Op) :
    Reachable (run st ops) := by
  obtain ⟨d, v, e0, ops0, rfl⟩ := h
  refine ⟨d, v, e0, ops0 ++ ops, ?_⟩
  unfold run
  rw [List.foldl_append]

/-! ## What the contract answers once an entity is finalised -/

/-- A finalised submission makes any further `verifySubmission` call revert
with "Submission already verified". -/
theorem verify_checked_error {st : State} {caller : Address} {sid : Nat}
    {approved : Bool} {score : Fin 256} {cid : String} {recvOk : Bool}
    (hid : (st.submissions sid).id ≠ 0)
    (hchk : (st.submissions sid).qualityChecked = true) :
    verifySubmission st caller sid approved score cid recvOk
      = .error .alreadyVerified := by
  unfold verifySubmission
  rw [if_neg hid, if_pos hchk]

/-- Submitting against a Closed request reverts with "Request not open". -/
theorem submit_closed_error {st : State} {caller : Address} {rid : Nat}
    {fmt : DataFormat} {fileSize sampleCount : Nat} {exts ref : String}
    {model : Address} {time : Nat}
    (hid : (st.requests rid).id ≠ 0)
    (hcl : (st.requests rid).status = RequestStatus.CLOSED) :
    submitDataset st caller rid fmt fileSize sampleCount exts ref model time
      = .error .requestNotOpen := by
  have hne : (st.requests rid).status ≠ RequestStatus.OPEN := by
    rw [hcl]
    decide
  unfold submitDataset
  rw [if_neg hid, if_pos hne]

/-- A second submission by the same seller while the request is Open and
the whitelist check passes reverts with "Already submitted". -/
theorem submit_dup_error {st : State} {caller : Address} {rid : Nat}
    {fmt : DataFormat} {fileSize sampleCount : Nat} {exts ref : String}
    {model : Address} {time : Nat}
    (hid : (st.requests rid).id ≠ 0)
    (hopen : (st.requests rid).status = RequestStatus.OPEN)
    (hwl : ¬ (st.whitelistEnabled = true ∧ st.sellerWhitelist caller = false))
    (hflag : st.hasSubmittedForRequest rid caller = true) :
    submitDataset st caller rid fmt fileSize sampleCount exts ref model time
      = .error .alreadySubmitted := by
  unfold submitDataset
  rw [if_neg hid, if_neg (not_not_intro hopen), if_neg hwl, if_pos hflag]

/-- Once the dedup flag is set, `submitDataset` for that pair always
reverts (with one of the guards' errors). -/
theorem submit_blocked {st : State} {caller : Address} {rid : Nat}
    (fmt : DataFormat) (fileSize sampleCount : Nat) (exts ref : String)
    (model : Address) (time : Nat)
    (hflag : st.hasSubmittedForRequest rid caller = true) :
    ∃ e, submitDataset st caller rid fmt fileSize sampleCount exts ref model time
      = .error e := by
  unfold submitDataset
  by_cases h1 : (st.requests rid).id = 0
  · exact ⟨Err.requestNotFound, by rw [if_pos h1]⟩
  by_cases h2 : (st.requests rid).status ≠ RequestStatus.OPEN
  · exact ⟨Err.requestNotOpen, by rw [if_neg h1, if_pos h2]⟩
  by_cases h3 : st.whitelistEnabled = true ∧ st.sellerWhitelist caller = false
  · exact ⟨Err.notWhitelisted, by rw [if_neg h1, if_neg h2, if_pos h3]⟩
  · exact ⟨Err.alreadySubmitted, by rw [if_neg h1, if_neg h2, if_neg h3, if_pos hflag]⟩

/-- Verifying any submission whose owning request is Closed always
reverts. -/
theorem verify_blocked_closed {st : State} {caller : Address} {sid : Nat}
    {approved : Bool} {score : Fin 256} {cid : String} {recvOk : Bool}
    (hreq : (st.requests (st.submissions sid).requestId).status
      = RequestStatus.CLOSED) :
    ∃ e, verifySubmission st caller sid approved score cid recvOk = .error e := by
  unfold verifySubmission
  by_cases h1 : (st.submissions sid).id = 0
  · exact ⟨Err.submissionNotFound, by rw [if_pos h1]⟩
  by_cases h2 : (st.submissions sid).qualityChecked = true
  · exact ⟨Err.alreadyVerified, by rw [if_neg h1, if_pos h2]⟩
  by_cases h3 : (st.requests (st.submissions sid).requestId).id = 0
  · exact ⟨Err.assocRequestNotFound, by rw [if_neg h1, if_neg h2, if_pos h3]⟩
  · refine ⟨Err.requestFinalized, ?_⟩
    have h4 : (st.requests (st.submissions sid).requestId).status
        ≠ RequestStatus.OPEN := by
      rw [hreq]
      decide
    rw [if_neg h1, if_neg h2, if_neg h3, if_pos h4]


/-- In an invariant state the defensive "No funds in escrow" check of
`verifySubmission` can never be the failure: an Open request always has a
positive budget. -/
theorem verify_never_noEscrow {st : State} (h : Inv st) (caller : Address)
    (sid : Nat) (approved : Bool) (score : Fin 256) (cid : String) (recvOk : Bool) :
    verifySubmission st caller sid approved score cid recvOk
      ≠ .error .noEscrow := by
  intro hEq
  unfold verifySubmission at hEq
  by_cases h1 : (st.submissions sid).id = 0
  · rw [if_pos h1] at hEq
    simp at hEq
  rw [if_neg h1] at hEq
  by_cases h2 : (st.submissions sid).qualityChecked = true
  · rw [if_pos h2] at hEq
    simp at hEq
  rw [if_neg h2] at hEq
  by_cases h3 : (st.requests (st.submissions sid).requestId).id = 0
  · rw [if_pos h3] at hEq
    simp at hEq
  rw [if_neg h3] at hEq
  by_cases h4 : (st.requests (st.submissions sid).requestId).status ≠ RequestStatus.OPEN
  · rw [if_pos h4] at hEq
    simp at hEq
  rw [if_neg h4] at hEq
  by_cases h5 : caller = (st.submissions sid).model ∧ st.allowModelSelfVerify = false
  · rw [if_pos h5] at hEq
    simp at hEq
  rw [if_neg h5] at hEq
  by_cases h6 : caller = (st.submissions sid).model ∧ st.modelRegistryEnabled = true
      ∧ st.modelRegistry caller = false
  · rw [if_pos h6] at hEq
    simp at hEq
  rw [if_neg h6] at hEq
  by_cases h7 : ¬ (caller = st.qualityVerifier ∨ caller = (st.submissions sid).model)
  · rw [if_pos h7] at hEq
    simp at hEq
  rw [if_neg h7] at hEq
  by_cases h8 : (st.requests (st.submissions sid).requestId).budget = 0
  · have hb := (h.open_pos _ h3).mp (not_not.mp h4)
    omega
  rw [if_neg h8] at hEq
  by_cases h9 : st.totalEscrowed < (st.requests (st.submissions sid).requestId).budget
  · rw [if_pos h9] at hEq
    simp at hEq
  rw [if_neg h9] at hEq
  cases approved with
  | true =>
      rw [if_pos rfl] at hEq
      by_cases h11 : ¬ (recvOk = true
          ∧ (st.requests (st.submissions sid).requestId).budget ≤ st.contractBal)
      · rw [if_pos h11] at hEq
        simp at hEq
      · rw [if_neg h11] at hEq
        simp at hEq
  | false =>
      rw [if_neg (by simp : ¬ (false = true))] at hEq
      by_cases h12 : ¬ (recvOk = true
          ∧ (st.requests (st.submissions sid).requestId).budget ≤ st.contractBal)
      · rw [if_pos h12] at hEq
        simp at hEq
      · rw [if_neg h12] at hEq
        simp at hEq

/-- The authorization-rejection errors of `verifySubmission`, all rendered
as the spec's `Unauthorized` kind. -/
def AuthErr (e : Err) : Prop :=
  e = Err.selfVerifyDisabled ∨ e = Err.modelNotRegistered ∨ e = Err.notVerifierOrModel

/-- A caller who fails the code's authorization condition is rejected with
an authorization error. -/
theorem verify_auth_error {st : State} {caller : Address} {sid : Nat}
    (approved : Bool) (score : Fin 256) (cid : String) (recvOk : Bool)
    (hid : (st.submissions sid).id ≠ 0)
    (hchk : (st.submissions sid).qualityChecked = false)
    (hrid : (st.requests (st.submissions sid).requestId).id ≠ 0)
    (hopen : (st.requests (st.submissions sid).requestId).status = RequestStatus.OPEN)
    (hnA : ¬ authOk st caller sid) :
    ∃ e, verifySubmission st caller sid approved score cid recvOk = .error e
      ∧ AuthErr e := by
  have hnc : ¬ ((st.submissions sid).qualityChecked = true) := by
    rw [hchk]
    simp
  have hno : ¬ ((st.requests (st.submissions sid).requestId).status
      ≠ RequestStatus.OPEN) := not_not_intro hopen
  unfold verifySubmission
  by_cases g5 : caller = (st.submissions sid).model ∧ st.allowModelSelfVerify = false
  · exact ⟨Err.selfVerifyDisabled,
      by rw [if_neg hid, if_neg hnc, if_neg hrid, if_neg hno, if_pos g5],
      Or.inl rfl⟩
  by_cases g6 : caller = (st.submissions sid).model ∧ st.modelRegistryEnabled = true
      ∧ st.modelRegistry caller = false
  · exact ⟨Err.modelNotRegistered,
      by rw [if_neg hid, if_neg hnc, if_neg hrid, if_neg hno, if_neg g5, if_pos g6],
      Or.inr (Or.inl rfl)⟩
  by_cases g7 : ¬ (caller = st.qualityVerifier ∨ caller = (st.submissions sid).model)
  · exact ⟨Err.notVerifierOrModel,
      by rw [if_neg hid, if_neg hnc, if_neg hrid, if_neg hno, if_neg g5, if_neg g6,
             if_pos g7],
      Or.inr (Or.inr rfl)⟩
  exfalso
  apply hnA
  constructor
  · intro hm
    constructor
    · by_cases ha : st.allowModelSelfVerify = true
      · exact ha
      · exact absurd ⟨hm, Bool.eq_false_iff.mpr ha⟩ g5
    · intro hre
      by_cases hr : st.modelRegistry caller = true
      · exact hr
      · exact absurd ⟨hm, hre, Bool.eq_false_iff.mpr hr⟩ g6
  · exact not_not.mp g7

/-- A caller who satisfies the code's authorization condition is never
rejected with an authorization error. -/
theorem verify_no_auth_error {st : State} {caller : Address} {sid : Nat}
    (approved : Bool) (score : Fin 256) (cid : String) (recvOk : Bool)
    (hA : authOk st caller sid) :
    ∀ e, verifySubmission st caller sid approved score cid recvOk = .error e →
      ¬ AuthErr e := by
  intro e hEq hAe
  unfold verifySubmission at hEq
  by_cases h1 : (st.submissions sid).id = 0
  · rw [if_pos h1] at hEq
    cases hEq
    simp [AuthErr] at hAe
  rw [if_neg h1] at hEq
  by_cases h2 : (st.submissions sid).qualityChecked = true
  · rw [if_pos h2] at hEq
    cases hEq
    simp [AuthErr] at hAe
  rw [if_neg h2] at hEq
  by_cases h3 : (st.requests (st.submissions sid).requestId).id = 0
  · rw [if_pos h3] at hEq
    cases hEq
    simp [AuthErr] at hAe
  rw [if_neg h3] at hEq
  by_cases h4 : (st.requests (st.submissions sid).requestId).status ≠ RequestStatus.OPEN
  · rw [if_pos h4] at hEq
    cases hEq
    simp [AuthErr] at hAe
  rw [if_neg h4] at hEq
  have g5 : ¬ (caller = (st.submissions sid).model ∧ st.allowModelSelfVerify = false) := by
    rintro ⟨hm, ha⟩
    rw [(hA.1 hm).1] at ha
    exact Bool.noConfusion ha
  rw [if_neg g5] at hEq
  have g6 : ¬ (caller = (st.submissions sid).model ∧ st.modelRegistryEnabled = true
      ∧ st.modelRegistry caller = false) := by
    rintro ⟨hm, hre, hr⟩
    rw [(hA.1 hm).2 hre] at hr
    exact Bool.noConfusion hr
  rw [if_neg g6] at hEq
  rw [if_neg (not_not_intro hA.2)] at hEq
  by_cases h8 : (st.requests (st.submissions sid).requestId).budget = 0
  · rw [if_pos h8] at hEq
    cases hEq
    simp [AuthErr] at hAe
  rw [if_neg h8] at hEq
  by_cases h9 : st.totalEscrowed < (st.requests (st.submissions sid).requestId).budget
  · rw [if_pos h9] at hEq
    cases hEq
    simp [AuthErr] at hAe
  rw [if_neg h9] at hEq
  cases approved with
  | true =>
      rw [if_pos rfl] at hEq
      by_cases h11 : ¬ (recvOk = true
          ∧ (st.requests (st.submissions sid).requestId).budget ≤ st.contractBal)
      · rw [if_pos h11] at hEq
        cases hEq
        simp [AuthErr] at hAe
      · rw [if_neg h11] at hEq
        exact Except.noConfusion hEq
  | false =>
      rw [if_neg (by simp : ¬ (false = true))] at hEq
      by_cases h12 : ¬ (recvOk = true
          ∧ (st.requests (st.submissions sid).requestId).budget ≤ st.contractBal)
      · rw [if_pos h12] at hEq
        cases hEq
        simp [AuthErr] at hAe
      · rw [if_neg h12] at hEq
        exact Except.noConfusion hEq


/-! ## Concrete fixtures for witnesses and counterexamples -/

/-- Every external account starts with 1000 wei. -/
def exEoa : Address → Nat := fun _ => 1000

/-- Deployment by account 0 with account 5 as configured quality verifier. -/
def exInit : State := initState 0 5 exEoa

/-- Buyer 1 funds request 1 with 100 wei, accepting only CSV (mask 2). -/
def exCreateOp : Op := Op.createRequest 1 100 2 "csv dataset" 10

def exAfterCreate : State := applyOp exInit exCreateOp

/-- Seller 2 submits for request 1; model defaulted to the seller. -/
def exSubmitOp : Op := Op.submitDataset 2 1 DataFormat.CSV 5 10 "csv" "ref" 0 11

def exAfterSubmit : State := applyOp exAfterCreate exSubmitOp

/-- Seller 2 submits for request 1 naming the configured verifier (5) as
the producer model. -/
def exSubmitModelOp : Op := Op.submitDataset 2 1 DataFormat.CSV 5 10 "csv" "ref" 5 11

def exAfterSubmitModel : State := applyOp exAfterCreate exSubmitModelOp

/-- Seller 2 submits an AUDIO dataset for the CSV-only request 1. -/
def exSubmitAudioOp : Op := Op.submitDataset 2 1 DataFormat.AUDIO 5 10 "wav" "ref" 0 11

/-- Buyer 1 cancels request 1. -/
def exCancelOp : Op := Op.cancelRequest 1 1 true

def exAfterCancel : State := applyOp exAfterSubmit exCancelOp

/-- Verifier 5 approves submission 1 with score 90. -/
def exVerifyOp : Op := Op.verifySubmission 5 1 true 90 "cid" true

/-! ## The claims -/

/-- C1: for every sequence of operations from the initial state — i.e. in
every reachable state — `totalEscrowed` equals the sum of `budget` over
the Open requests. -/
theorem C1_totalEscrowed_eq_openEscrow {st : State} (h : Reachable st) :
    st.totalEscrowed = openEscrow st := (reachable_inv h).escrow_eq

/-- Witness for C1 at a concrete reachable state. -/
theorem C1_witness : exAfterSubmit.totalEscrowed = openEscrow exAfterSubmit :=
  C1_totalEscrowed_eq_openEscrow ⟨0, 5, exEoa, [exCreateOp, exSubmitOp], rfl⟩

/-- C2: when all preconditions of `verifySubmission` hold but the external
transfer fails, the call reverts with exactly `payoutFailed` (approved
branch) or `refundFailed` (rejected branch) and the state — including
`qualityChecked`, the submission and request statuses, the budget,
`totalEscrowed` and the verifier history — is exactly as before. -/
theorem C2_transfer_failure_atomic {st : State} {caller : Address} {sid : Nat}
    {approved : Bool} {score : Fin 256} {cid : String} {recvOk : Bool}
    (hid : (st.submissions sid).id ≠ 0)
    (hchk : (st.submissions sid).qualityChecked = false)
    (hrid : (st.requests (st.submissions sid).requestId).id ≠ 0)
    (hopen : (st.requests (st.submissions sid).requestId).status = RequestStatus.OPEN)
    (hauth : authOk st caller sid)
    (hb : (st.requests (st.submissions sid).requestId).budget ≠ 0)
    (hesc : (st.requests (st.submissions sid).requestId).budget ≤ st.totalEscrowed)
    (hfail : ¬ (recvOk = true
      ∧ (st.requests (st.submissions sid).requestId).budget ≤ st.contractBal)) :
    step st (.verifySubmission caller sid approved score cid recvOk)
      = .error (if approved = true then Err.payoutFailed else Err.refundFailed)
    ∧ applyOp st (.verifySubmission caller sid approved score cid recvOk) = st := by
  have hnc : ¬ ((st.submissions sid).qualityChecked = true) := by
    rw [hchk]
    simp
  have hno : ¬ ((st.requests (st.submissions sid).requestId).status
      ≠ RequestStatus.OPEN) := not_not_intro hopen
  have g5 : ¬ (caller = (st.submissions sid).model
      ∧ st.allowModelSelfVerify = false) := by
    rintro ⟨hm, ha⟩
    rw [(hauth.1 hm).1] at ha
    exact Bool.noConfusion ha
  have g6 : ¬ (caller = (st.submissions sid).model ∧ st.modelRegistryEnabled = true
      ∧ st.modelRegistry caller = false) := by
    rintro ⟨hm, hre, hr⟩
    rw [(hauth.1 hm).2 hre] at hr
    exact Bool.noConfusion hr
  have g9 : ¬ (st.totalEscrowed
      < (st.requests (st.submissions sid).requestId).budget) := not_lt.mpr hesc
  have hE : verifySubmission st caller sid approved score cid recvOk
      = .error (if approved = true then Err.payoutFailed else Err.refundFailed) := by
    unfold verifySubmission
    rw [if_neg hid, if_neg hnc, if_neg hrid, if_neg hno, if_neg g5, if_neg g6,
        if_neg (not_not_intro hauth.2), if_neg hb, if_neg g9]
    cases approved with
    | true =>
        rw [if_pos rfl, if_pos hfail]
        rfl
    | false =>
        rw [if_neg (by simp : ¬ (false = true)), if_pos hfail]
        rfl
  exact ⟨hE, applyOp_error hE⟩

/-- Witness for C2: verifier 5 approves submission 1 but the seller's
account rejects the transfer; the call reverts with `payoutFailed` and the
state is unchanged. -/
theorem C2_witness :
    step exAfterSubmit (.verifySubmission 5 1 true 90 "cid" false)
      = .error (if true = true then Err.payoutFailed else Err.refundFailed)
    ∧ applyOp exAfterSubmit (.verifySubmission 5 1 true 90 "cid" false)
      = exAfterSubmit :=
  C2_transfer_failure_atomic (by decide) (by decide) (by decide) (by decide)
    (by decide) (by decide) (by decide) (by decide)

/-- C3: a committed `verifySubmission` with `approved = true` credits the
seller with exactly the pre-call budget, zeroes the request's budget,
closes the request, and marks the submission Paid. -/
theorem C3_approval_conservation {st st1 : State} {caller : Address} {sid : Nat}
    {score : Fin 256} {cid : String} {recvOk : Bool}
    (hok : step st (.verifySubmission caller sid true score cid recvOk) = .ok st1) :
    st1.eoa (st.submissions sid).seller
      = st.eoa (st.submissions sid).seller
        + (st.requests (st.submissions sid).requestId).budget
    ∧ (st1.requests (st.submissions sid).requestId).budget = 0
    ∧ (st1.requests (st.submissions sid).requestId).status = RequestStatus.CLOSED
    ∧ (st1.submissions sid).status = SubmissionStatus.PAID := by
  obtain ⟨hid, hchk, hrid, hopen, hauth, hb, hesc, hrecv, hble, rfl⟩ :=
    verify_ok_inversion hok
  refine ⟨?_, ?_, ?_, ?_⟩
  · simp [creditAt]
  · simp [setReq_same]
  · simp [setReq_same]
  · simp [setSub_same]

/-- Witness for C3 on the concrete approval scenario (budget 100). -/
theorem C3_witness :
    (applyOp exAfterSubmit exVerifyOp).eoa (exAfterSubmit.submissions 1).seller
      = exAfterSubmit.eoa (exAfterSubmit.submissions 1).seller
        + (exAfterSubmit.requests (exAfterSubmit.submissions 1).requestId).budget
    ∧ ((applyOp exAfterSubmit exVerifyOp).requests
        (exAfterSubmit.submissions 1).requestId).budget = 0
    ∧ ((applyOp exAfterSubmit exVerifyOp).requests
        (exAfterSubmit.submissions 1).requestId).status = RequestStatus.CLOSED
    ∧ ((applyOp exAfterSubmit exVerifyOp).submissions 1).status
        = SubmissionStatus.PAID :=
  @C3_approval_conservation exAfterSubmit (applyOp exAfterSubmit exVerifyOp)
    5 1 90 "cid" true rfl

/-- C4 counterexample: the caller IS the configured verifier (5), the
submission is pending on an Open request, yet the call is rejected by the
authorization logic with "Model self-verify disabled", because the caller
also equals the submission's producer model and `allowModelSelfVerify` is
false.  The claim predicted a caller equal to the configured verifier is
always authorized. -/
theorem C4_counterexample :
    exAfterSubmitModel.qualityVerifier = 5
    ∧ (exAfterSubmitModel.submissions 1).model = 5
    ∧ exAfterSubmitModel.allowModelSelfVerify = false
    ∧ (exAfterSubmitModel.submissions 1).id = 1
    ∧ (exAfterSubmitModel.submissions 1).qualityChecked = false
    ∧ (exAfterSubmitModel.requests 1).status = RequestStatus.OPEN
    ∧ step exAfterSubmitModel (.verifySubmission 5 1 true 90 "cid" true)
        = .error Err.selfVerifyDisabled
    ∧ AuthErr Err.selfVerifyDisabled := by
  exact ⟨rfl, rfl, rfl, rfl, rfl, rfl, rfl, Or.inl rfl⟩

/-- C4 (amended): for a pending submission on an existing Open request,
`verifySubmission` is rejected with an authorization error (the
`Unauthorized` kind: self-verify disabled, model not registered, or not
verifier/model) exactly when the caller fails the code's condition
`authOk`: the caller must be the configured verifier or the producer
model, and a caller equal to the producer model must additionally have
self-verify enabled and (when enforcement is on) be registered — even if
that caller is also the configured verifier.  A rejected call changes no
state. -/
theorem C4_authorization_exact {st : State} (caller : Address) (sid : Nat)
    (approved : Bool) (score : Fin 256) (cid : String) (recvOk : Bool)
    (hid : (st.submissions sid).id ≠ 0)
    (hchk : (st.submissions sid).qualityChecked = false)
    (hrid : (st.requests (st.submissions sid).requestId).id ≠ 0)
    (hopen : (st.requests (st.submissions sid).requestId).status
      = RequestStatus.OPEN) :
    ((∃ e, step st (.verifySubmission caller sid approved score cid recvOk)
        = .error e ∧ AuthErr e)
      ↔ ¬ authOk st caller sid)
    ∧ (¬ authOk st caller sid →
        applyOp st (.verifySubmission caller sid approved score cid recvOk) = st) := by
  constructor
  · constructor
    · rintro ⟨e, hEq, hAe⟩
      by_cases hA : authOk st caller sid
      · exact absurd hAe (verify_no_auth_error approved score cid recvOk hA e hEq)
      · exact hA
    · intro hnA
      exact verify_auth_error approved score cid recvOk hid hchk hrid hopen hnA
  · intro hnA
    obtain ⟨e, hEq, -⟩ :=
      verify_auth_error approved score cid recvOk hid hchk hrid hopen hnA
    exact applyOp_error hEq

/-- Witness for C4 (amended): account 7 is neither verifier nor model and
its call leaves the state unchanged. -/
theorem C4_witness :
    applyOp exAfterSubmitModel (.verifySubmission 7 1 true 90 "cid" true)
      = exAfterSubmitModel :=
  (C4_authorization_exact 7 1 true 90 "cid" true (by decide) (by decide)
    (by decide) (by decide)).2 (by decide)

/-- C5: a submission is finalised at most once: after one committed
`verifySubmission`, every later call on the same submission id — any
caller, any arguments, after any further transactions — reverts with
"Submission already verified" (`InvalidState`) and changes no state. -/
theorem C5_verify_at_most_once {st st1 : State} {caller : Address} {sid : Nat}
    {approved : Bool} {score : Fin 256} {cid : String} {recvOk : Bool}
    (h : Reachable st)
    (hok : step st (.verifySubmission caller sid approved score cid recvOk) = .ok st1)
    (ops : List Op) (caller2 : Address) (approved2 : Bool) (score2 : Fin 256)
    (cid2 : String) (recvOk2 : Bool) :
    step (run st1 ops) (.verifySubmission caller2 sid approved2 score2 cid2 recvOk2)
      = .error Err.alreadyVerified
    ∧ applyOp (run st1 ops)
        (.verifySubmission caller2 sid approved2 score2 cid2 recvOk2)
      = run st1 ops := by
  have hInv := reachable_inv h
  have hInv1 := inv_step hInv hok
  obtain ⟨hid, hchk, hrid, hopen, -, -, -, -, -, hst1⟩ := verify_ok_inversion hok
  have hid1 : (st1.submissions sid).id ≠ 0 := by
    rw [hst1]
    simpa [setSub_same] using hid
  have hchk1 : (st1.submissions sid).qualityChecked = true := by
    rw [hst1]
    simp [setSub_same]
  obtain ⟨-, -, -, c4, -⟩ := run_effects hInv1 ops
  have hpres := c4 sid hid1 hchk1
  have hidr : ((run st1 ops).submissions sid).id ≠ 0 := by
    rw [hpres]
    exact hid1
  have hchkr : ((run st1 ops).submissions sid).qualityChecked = true := by
    rw [hpres]
    exact hchk1
  exact ⟨verify_checked_error hidr hchkr,
    applyOp_error (verify_checked_error hidr hchkr)⟩

/-- Witness for C5: the second finalization attempt on submission 1 fails
with "already verified" and changes nothing. -/
theorem C5_witness :
    step (run (applyOp exAfterSubmit exVerifyOp) [])
        (.verifySubmission 5 1 false 40 "x" true)
      = .error Err.alreadyVerified
    ∧ applyOp (run (applyOp exAfterSubmit exVerifyOp) [])
        (.verifySubmission 5 1 false 40 "x" true)
      = run (applyOp exAfterSubmit exVerifyOp) [] :=
  @C5_verify_at_most_once exAfterSubmit (applyOp exAfterSubmit exVerifyOp)
    5 1 true 90 "cid" true ⟨0, 5, exEoa, [exCreateOp, exSubmitOp], rfl⟩ rfl []
    5 false 40 "x" true


/-- C6 counterexample: after seller 2's successful submission for request
1, the buyer cancels the request; seller 2's second `submitDataset` then
fails with "Request not open" (`InvalidState`), not with
`DuplicateSubmission` as the claim states. -/
theorem C6_counterexample :
    (step exAfterCreate exSubmitOp).isOk = true
    ∧ step exAfterCancel exSubmitOp = .error Err.requestNotOpen
    ∧ Err.requestNotOpen ≠ Err.alreadySubmitted := by
  refine ⟨by decide, by rfl, by decide⟩

/-- C6 (amended): after a seller's successful `submitDataset` for a
request, any later `submitDataset` by the same (request, seller) pair
fails and leaves all state — in particular the first submission's record —
unchanged; it fails specifically with `DuplicateSubmission` whenever the
request is still Open and the whitelist check passes for the seller. -/
theorem C6_duplicate_submission {st st1 : State} {caller : Address} {rid : Nat}
    {fmt : DataFormat} {fs sc : Nat} {ex rf : String} {model : Address} {t : Nat}
    (h : Reachable st)
    (hok : step st (.submitDataset caller rid fmt fs sc ex rf model t) = .ok st1)
    (ops : List Op) (fmt2 : DataFormat) (fs2 sc2 : Nat) (ex2 rf2 : String)
    (model2 : Address) (t2 : Nat) :
    (∃ e, step (run st1 ops)
        (.submitDataset caller rid fmt2 fs2 sc2 ex2 rf2 model2 t2) = .error e)
    ∧ applyOp (run st1 ops)
        (.submitDataset caller rid fmt2 fs2 sc2 ex2 rf2 model2 t2) = run st1 ops
    ∧ (((run st1 ops).requests rid).status = RequestStatus.OPEN →
        ¬ ((run st1 ops).whitelistEnabled = true
            ∧ (run st1 ops).sellerWhitelist caller = false) →
        step (run st1 ops) (.submitDataset caller rid fmt2 fs2 sc2 ex2 rf2 model2 t2)
          = .error Err.alreadySubmitted) := by
  have hInv := reachable_inv h
  have hInv1 := inv_step hInv hok
  have hInvR := inv_run hInv1 ops
  obtain ⟨hid0, hopen0, -, hflag1, hreq1, hcnt1⟩ := submit_ok_flag hok
  obtain ⟨cnt1, -, -, -, c5⟩ := run_effects hInv1 ops
  have hflag2 := c5 rid caller hflag1
  obtain ⟨e, hE⟩ := submit_blocked fmt2 fs2 sc2 ex2 rf2 model2 t2 hflag2
  refine ⟨⟨e, hE⟩, applyOp_error hE, ?_⟩
  intro hopen2 hwl2
  have hb : 1 ≤ rid ∧ rid ≤ st1.requestCounter := by
    rw [hcnt1]
    exact (hInv.req_range rid).mp hid0
  have hid2 : ((run st1 ops).requests rid).id ≠ 0 :=
    (hInvR.req_range rid).mpr ⟨hb.1, le_trans hb.2 cnt1⟩
  exact submit_dup_error hid2 hopen2 hwl2 hflag2

/-- Witness for C6 (amended) on a concrete trace where the request is
still Open. -/
theorem C6_witness :
    step (run (applyOp exAfterCreate exSubmitOp) [])
        (.submitDataset 2 1 DataFormat.CSV 5 10 "csv" "ref" 0 12)
      = .error Err.alreadySubmitted :=
  (@C6_duplicate_submission exAfterCreate (applyOp exAfterCreate exSubmitOp)
      2 1 DataFormat.CSV 5 10 "csv" "ref" 0 11
      ⟨0, 5, exEoa, [exCreateOp], rfl⟩ rfl []
      DataFormat.CSV 5 10 "csv" "ref" 0 12).2.2 (by decide) (by decide)

/-- C7: once a request is Closed, its record never changes again, no
`submitDataset` targeting it succeeds (it reverts with "Request not
open"), and no `verifySubmission` of any of its submissions succeeds. -/
theorem C7_closed_request_frozen {st : State} {rid : Nat} (h : Reachable st)
    (hid : (st.requests rid).id ≠ 0)
    (hcl : (st.requests rid).status = RequestStatus.CLOSED)
    (ops : List Op) :
    (run st ops).requests rid = st.requests rid
    ∧ (∀ caller fmt fs sc ex rf model t,
        step (run st ops) (.submitDataset caller rid fmt fs sc ex rf model t)
          = .error Err.requestNotOpen)
    ∧ (∀ sid caller approved score cid recvOk,
        ((run st ops).submissions sid).requestId = rid →
        ∃ e, step (run st ops) (.verifySubmission caller sid approved score cid recvOk)
            = .error e) := by
  have hInv := reachable_inv h
  obtain ⟨-, -, c3, -, -⟩ := run_effects hInv ops
  have hfro := c3 rid hid hcl
  have hid2 : ((run st ops).requests rid).id ≠ 0 := by
    rw [hfro]
    exact hid
  have hcl2 : ((run st ops).requests rid).status = RequestStatus.CLOSED := by
    rw [hfro]
    exact hcl
  refine ⟨hfro, ?_, ?_⟩
  · intro caller fmt fs sc ex rf model t
    exact submit_closed_error hid2 hcl2
  · intro sid caller approved score cid recvOk hreq
    refine verify_blocked_closed ?_
    rw [hreq]
    exact hcl2

/-- Witness for C7: after cancellation closed request 1, a fresh
submission attempt reverts and the record is unchanged. -/
theorem C7_witness :
    (run exAfterCancel []).requests 1 = exAfterCancel.requests 1
    ∧ step (run exAfterCancel []) (.submitDataset 3 1 DataFormat.CSV 1 1 "a" "b" 0 13)
        = .error Err.requestNotOpen :=
  ⟨(C7_closed_request_frozen
      ⟨0, 5, exEoa, [exCreateOp, exSubmitOp, exCancelOp], rfl⟩
      (by decide) (by decide) []).1,
    (C7_closed_request_frozen
      ⟨0, 5, exEoa, [exCreateOp, exSubmitOp, exCancelOp], rfl⟩
      (by decide) (by decide) []).2.1 3 DataFormat.CSV 1 1 "a" "b" 0 13⟩

/-- C8: `emergencyWithdraw` fails with no state change whenever the amount
exceeds custody minus `totalEscrowed`, and a successful withdrawal never
drops custody below `totalEscrowed`. -/
theorem C8_emergencyWithdraw_escrow_safe (st : State) (caller dest : Address)
    (amount : Nat) (recvOk : Bool) :
    (st.contractBal < st.totalEscrowed + amount →
      applyOp st (.emergencyWithdraw caller dest amount recvOk) = st
      ∧ ∃ e, step st (.emergencyWithdraw caller dest amount recvOk) = .error e)
    ∧ (∀ st1, step st (.emergencyWithdraw caller dest amount recvOk) = .ok st1 →
        st1.totalEscrowed ≤ st1.contractBal) := by
  constructor
  · intro hlt
    have hE : ∃ e, emergencyWithdraw st caller dest amount recvOk = .error e := by
      unfold emergencyWithdraw
      by_cases h1 : caller ≠ st.owner
      · exact ⟨Err.onlyOwner, by rw [if_pos h1]⟩
      by_cases h2 : st.contractBal < st.totalEscrowed
      · exact ⟨Err.balanceBelowEscrow, by rw [if_neg h1, if_pos h2]⟩
      · refine ⟨Err.amountExceedsFree, ?_⟩
        have h3 : st.contractBal - st.totalEscrowed < amount := by omega
        rw [if_neg h1, if_neg h2, if_pos h3]
    obtain ⟨e, hE⟩ := hE
    exact ⟨applyOp_error hE, ⟨e, hE⟩⟩
  · intro st1 hok
    simp only [step, emergencyWithdraw] at hok
    split_ifs at hok with h1 h2 h3 h4 <;> cases hok
    show st.totalEscrowed ≤ st.contractBal - amount
    omega

/-- Witness for C8: in the deployment state (custody 0, escrow 0), a
withdrawal of 5 reverts and changes nothing. -/
theorem C8_witness :
    applyOp exInit (.emergencyWithdraw 0 7 5 true) = exInit :=
  ((C8_emergencyWithdraw_escrow_safe exInit 0 7 5 true).1 (by decide)).1

/-- C9: in every reachable state an existing request is Open exactly when
its budget is positive, and consequently `verifySubmission` never fails
with the defensive "No funds in escrow" check. -/
theorem C9_open_iff_positive {st : State} (h : Reachable st) :
    (∀ i, (st.requests i).id ≠ 0 →
      ((st.requests i).status = RequestStatus.OPEN ↔ 0 < (st.requests i).budget))
    ∧ ∀ caller sid approved score cid recvOk,
        step st (.verifySubmission caller sid approved score cid recvOk)
          ≠ .error Err.noEscrow := by
  have hInv := reachable_inv h
  exact ⟨hInv.open_pos, fun caller sid approved score cid recvOk =>
    verify_never_noEscrow hInv caller sid approved score cid recvOk⟩

/-- Witness for C9 at a concrete reachable state. -/
theorem C9_witness :
    ((exAfterSubmit.requests 1).status = RequestStatus.OPEN
      ↔ 0 < (exAfterSubmit.requests 1).budget)
    ∧ step exAfterSubmit (.verifySubmission 5 1 true 90 "cid" true)
        ≠ .error Err.noEscrow :=
  ⟨(C9_open_iff_positive ⟨0, 5, exEoa, [exCreateOp, exSubmitOp], rfl⟩).1 1 (by decide),
    (C9_open_iff_positive ⟨0, 5, exEoa, [exCreateOp, exSubmitOp], rfl⟩).2
      5 1 true 90 "cid" true⟩

/-- C10: `submitDataset` does not compare the declared format with the
request's accepted-formats mask: request 1 accepts only CSV (mask 2),
AUDIO's bit is absent from the mask, yet seller 2's AUDIO submission
succeeds and is recorded; only the read-only query `requestAcceptsFormat`
reports the mask. -/
theorem C10_format_not_enforced :
    acceptsFormat ((exAfterCreate.requests 1).formatsMask) DataFormat.AUDIO = false
    ∧ requestAcceptsFormat exAfterCreate 1 DataFormat.AUDIO = .ok false
    ∧ (step exAfterCreate exSubmitAudioOp).isOk = true
    ∧ ((applyOp exAfterCreate exSubmitAudioOp).submissions 1).format
        = DataFormat.AUDIO
    ∧ ((applyOp exAfterCreate exSubmitAudioOp).submissions 1).status
        = SubmissionStatus.PENDING := by
  refine ⟨by decide, by rfl, by decide, by decide, by decide⟩

end SyntheticDataMarket
